import Mathlib

/-!
Verification of the faerun encounter-generation core.

Shallow embedding of:
  server/app/services/hex_coordinate_system.py  (HexCoordinateSystem)
  server/app/services/encounter_service.py      (position seed, encounter CR)
  server/app/data/xp_budgets.py                 (XP_BUDGETS, CR_TO_XP, lookups)
  server/app/data/monsters.py                   (BASIC_MONSTERS)
  server/app/services/xp_encounter_generator.py (XPEncounterGenerator)

Python integers are modelled as Int (or Nat where the source value is
manifestly non-negative), Python dict literals as association lists, and
the stateful `random` draws as explicit arguments that are universally
quantified in the theorems.  Floating-point subexpressions that the source
applies to small integers (`int(x * 1.2)`, `int(x * 0.6)`, `int(x * 0.4)`)
are modelled by the exact integer computations they agree with on the
whole range of values reachable from the XP tables; each such spot
carries a comment.
-/

/-! ## Python primitives modelled over character lists -/

/-- Model of the Python `str.lower()` (ASCII case folding suffices for the
difficulty strings the repository uses). -/
def pyLower (s : String) : String := ⟨s.data.map Char.toLower⟩

/-- Model of the Python `str.strip()`: drop whitespace from both ends. -/
def pyStrip (s : String) : String :=
  ⟨((s.data.dropWhile Char.isWhitespace).reverse.dropWhile Char.isWhitespace).reverse⟩

/-- Model of the Python `str.split(sep)` for a one-character separator,
returning the chunks between occurrences of the separator. -/
def splitOnChar (sep : Char) : List Char → List (List Char)
  | [] => [[]]
  | c :: cs =>
    if c = sep then
      [] :: splitOnChar sep cs
    else
      match splitOnChar sep cs with
      | [] => [[c]]
      | h :: t => (c :: h) :: t

/-- Digits of a decimal numeral folded to a Nat. -/
def digitsToNat (l : List Char) : Nat :=
  l.foldl (fun acc c => 10 * acc + (c.toNat - 48)) 0

/-- Model of the Python `float(s)` restricted to the integer numerals that
occur in CR strings in this repository; other shapes map to `none`, which
the embedding treats as the raised `ValueError`.  (The real `float` accepts
more formats; no CR string in the catalog or tables uses them.) -/
def pyParseInt (s : String) : Option Int :=
  match s.data with
  | [] => none
  | '-' :: rest =>
    if rest ≠ [] ∧ rest.all Char.isDigit then some (-(digitsToNat rest : Int)) else none
  | l =>
    if l.all Char.isDigit then some (digitsToNat l : Int) else none

/-- Association-list model of a Python dict literal: lookup scans the
key-value pairs in order (all keys in the embedded dicts are distinct). -/
def dictGet [BEq α] (k : α) : List (α × β) → Option β
  | [] => none
  | (k', v) :: rest => if k' == k then some v else dictGet k rest

/-- Model of the Python `min(xs, key=f)` on a non-empty list: the first
element with the minimal key. -/
def pyMinBy (f : α → Nat) (x : α) (xs : List α) : α :=
  xs.foldl (fun b a => if f a < f b then a else b) x

/-- Absolute difference of two naturals, the value of the Python
`abs(a - b)` on ints. -/
def absDiff (a b : Nat) : Nat := ((a : Int) - b).natAbs

/-- Insert an element into a list already sorted by `key` in descending
order, in front of the first element whose key is not larger.  Folding a
list from the right through this function is a stable descending sort. -/
def sortedInsertDesc (key : α → Nat) (x : α) : List α → List α
  | [] => [x]
  | y :: ys => if key y ≤ key x then x :: y :: ys else y :: sortedInsertDesc key x ys

/-- Model of the Python `sorted(l, key=key, reverse=True)`: a stable sort
by `key` descending.  Python timsort is stable, and any two stable sorts
of the same list under the same key produce the same output list, so the
insertion sort below computes exactly the list the source computes. -/
def pySortedDesc (key : α → Nat) (l : List α) : List α :=
  l.foldr (sortedInsertDesc key) []

/-! ## HexCoordinateSystem (hex_coordinate_system.py) -/

namespace HexCoordinateSystem

/-- The six axial direction deltas, in the order E, NE, NW, W, SW, SE. -/
def DIRECTIONS : List (Int × Int) :=
  [(1, 0), (1, -1), (0, -1), (-1, 0), (-1, 1), (0, 1)]

/-- Source `get_neighbor`: add the delta at `direction % 6`. -/
def get_neighbor (q r : Int) (direction : Nat) : Int × Int :=
  let d := DIRECTIONS.getD (direction % 6) (0, 0)
  (q + d.1, r + d.2)

/-- Source `get_all_neighbors`. -/
def get_all_neighbors (q r : Int) : List (Int × Int) :=
  (List.range 6).map (fun i => get_neighbor q r i)

/-- Source `get_distance`: cube-coordinate Manhattan distance halved,
`(abs(q1-q2) + abs(q1+r1-q2-r2) + abs(r1-r2)) // 2`.  The sum is always
even, so the Nat division is exact. -/
def get_distance (q1 r1 q2 r2 : Int) : Nat :=
  ((q1 - q2).natAbs + (q1 + r1 - q2 - r2).natAbs + (r1 - r2).natAbs) / 2

/-- Model of the Python `range(a, b + 1)` over ints, as the list
`[a, a+1, ..., b]` (empty when `b < a`). -/
def intRange (a b : Int) : List Int :=
  (List.range (b - a + 1).toNat).map (fun i => a + (i : Int))

/-- Source `get_hexes_in_radius`, line for line:
for `q` in `range(center_q - radius, center_q + radius + 1)`,
`r1 = max(center_r - radius, center_r - q - radius)`,
`r2 = min(center_r + radius, center_r - q + radius)`,
collect `(q, r)` for `r` in `range(r1, r2 + 1)`. -/
def get_hexes_in_radius (center_q center_r : Int) (radius : Nat) : List (Int × Int) :=
  (intRange (center_q - radius) (center_q + radius)).flatMap (fun q =>
    let r1 := max (center_r - radius) (center_r - q - radius)
    let r2 := min (center_r + radius) (center_r - q + radius)
    (intRange r1 r2).map (fun r => (q, r)))

end HexCoordinateSystem

/-! ## Position seed (encounter_service.py, `_get_position_seed`) -/

/-- Source `_get_position_seed`: `hash(f"{q},{r}") % (2**31)`.  The Python
builtin `hash` on strings is salted per process (PYTHONHASHSEED), so the
embedding abstracts it as an arbitrary integer-valued function of the
formatted string; a concrete process run corresponds to one choice of
`hashFn`. -/
def get_position_seed (hashFn : String → Int) (q r : Int) : Int :=
  hashFn (toString q ++ "," ++ toString r) % (2 ^ 31)

/-! ## XP budget tables (xp_budgets.py) -/

/-- Source dict `XP_BUDGETS`: XP budget per level (1-20) and difficulty. -/
def XP_BUDGETS : List (Int × List (String × Nat)) :=
  [(1, [("low", 50), ("moderate", 75), ("high", 100)]),
   (2, [("low", 100), ("moderate", 150), ("high", 200)]),
   (3, [("low", 150), ("moderate", 225), ("high", 400)]),
   (4, [("low", 250), ("moderate", 375), ("high", 500)]),
   (5, [("low", 500), ("moderate", 750), ("high", 1100)]),
   (6, [("low", 600), ("moderate", 1000), ("high", 1400)]),
   (7, [("low", 750), ("moderate", 1300), ("high", 1700)]),
   (8, [("low", 900), ("moderate", 1600), ("high", 2100)]),
   (9, [("low", 1100), ("moderate", 1900), ("high", 2600)]),
   (10, [("low", 1300), ("moderate", 2300), ("high", 3100)]),
   (11, [("low", 1600), ("moderate", 2700), ("high", 3700)]),
   (12, [("low", 1900), ("moderate", 3200), ("high", 4300)]),
   (13, [("low", 2200), ("moderate", 3700), ("high", 5000)]),
   (14, [("low", 2600), ("moderate", 4300), ("high", 5800)]),
   (15, [("low", 3000), ("moderate", 5000), ("high", 6700)]),
   (16, [("low", 3500), ("moderate", 5800), ("high", 7800)]),
   (17, [("low", 4000), ("moderate", 6700), ("high", 9000)]),
   (18, [("low", 4700), ("moderate", 7800), ("high", 10500)]),
   (19, [("low", 5400), ("moderate", 9000), ("high", 12100)]),
   (20, [("low", 6300), ("moderate", 10500), ("high", 14100)])]

/-- Source dict `CR_TO_XP`: the official CR-to-XP conversion table. -/
def CR_TO_XP : List (String × Nat) :=
  [("0", 10), ("1/8", 25), ("1/4", 50), ("1/2", 100),
   ("1", 200), ("2", 450), ("3", 700), ("4", 1100), ("5", 1800),
   ("6", 2300), ("7", 2900), ("8", 3900), ("9", 5000), ("10", 5900),
   ("11", 7200), ("12", 8400), ("13", 10000), ("14", 11500), ("15", 13000),
   ("16", 15000), ("17", 18000), ("18", 20000), ("19", 22000), ("20", 25000),
   ("21", 33000), ("22", 41000), ("23", 50000), ("24", 62000), ("25", 75000),
   ("26", 90000), ("27", 105000), ("28", 120000), ("29", 135000), ("30", 155000)]

/-- Source `get_xp_budget`: raise on a level outside the dict, lowercase
the difficulty, raise when the lowered difficulty is not a key, otherwise
return the table entry.  `Except.error` models the raised `ValueError`. -/
def get_xp_budget (level : Int) (difficulty : String) : Except String Nat :=
  match dictGet level XP_BUDGETS with
  | none => .error ("Invalid level: " ++ toString level ++ ". Must be 1-20.")
  | some tbl =>
    match dictGet (pyLower difficulty) tbl with
    | none => .error ("Invalid difficulty: " ++ difficulty ++
        ". Must be one of low, moderate, high.")
    | some v => .ok v

/-- Exact value of a parsed CR, kept as a numerator-denominator pair with
a positive denominator.  The source stores this value in a Python float;
the embedding keeps the exact rational instead, which agrees with the
float code on every comparison and truncation the repository performs
(the CR fractions and integer bounds involved are far too small for the
2^-52 relative float error to move a comparison or a truncation). -/
structure Frac where
  num : Int
  den : Int
deriving DecidableEq, Repr

/-- The comparison `f <= t` of a parsed CR against an integer tier
ceiling; with the positive denominators `pyParseCr` produces, this is the
exact rational comparison. -/
def Frac.leNat (f : Frac) (t : Nat) : Bool := f.num ≤ (t : Int) * f.den

/-- The try-block of `cr_to_xp` and the body of `_cr_to_float`: when the
string contains a slash, split into exactly two parts and divide
(a zero denominator is the raised `ZeroDivisionError`, hence `none`);
otherwise convert the whole string.  `none` models a raised exception.
The quotient is kept as an exact pair, sign-normalized so that the
denominator is positive. -/
def pyParseCr (s : String) : Option Frac :=
  if s.data.contains '/' then
    match splitOnChar '/' s.data with
    | [numStr, denStr] =>
      match pyParseInt ⟨numStr⟩, pyParseInt ⟨denStr⟩ with
      | some n, some d =>
        if d = 0 then none
        else if d < 0 then some ⟨-n, -d⟩ else some ⟨n, d⟩
      | _, _ => none
    | _ => none
  else
    (pyParseInt s).map (fun n => Frac.mk n 1)

/-- Source `cr_to_xp`: empty string gives 10; strip; exact table lookup;
otherwise parse and estimate (`25 + 75 * cr` below CR 1, `200 * cr ** 1.5`
from CR 1 up), truncated to int and clamped to at least 10; any parse
failure gives 10.  With `cr = n / d` (d positive), `int(25 + 75 * cr)` is
the exact truncation `(25 * d + 75 * n) tdiv d`, and
`int(200 * cr ** 1.5) = int(sqrt(40000 * n^3 * d) / d^2)` is the integer
square root divided by `d^2` (flooring a quotient by an integer commutes
with flooring the dividend). -/
def cr_to_xp (cr : String) : Int :=
  if cr.isEmpty then 10
  else
    let crStr := pyStrip cr
    match dictGet crStr CR_TO_XP with
    | some v => (v : Int)
    | none =>
      match pyParseCr crStr with
      | none => 10
      | some crFloat =>
        let estimated : Int :=
          if crFloat.num < crFloat.den then
            Int.tdiv (25 * crFloat.den + 75 * crFloat.num) crFloat.den
          else
            (Nat.sqrt (40000 * crFloat.num.toNat ^ 3 * crFloat.den.toNat)
              / crFloat.den.toNat ^ 2 : Nat)
        max 10 estimated

/-- Source `get_tier_max_cr`. -/
def get_tier_max_cr (level : Int) : Nat :=
  if level ≤ 4 then 2
  else if level ≤ 8 then 5
  else if level ≤ 12 then 8
  else if level ≤ 16 then 13
  else 20

/-! ## Monster catalog (monsters.py) -/

/-- One monster dict of `BASIC_MONSTERS`. -/
structure Monster where
  name : String
  cr : String
  xp : Nat
  mtype : String
  can_be_mount : Bool
  can_ride : Bool
deriving DecidableEq, Repr

/-- Source list `BASIC_MONSTERS`. -/
def BASIC_MONSTERS : List Monster :=
  [⟨"Rat", "0", 10, "beast", false, false⟩,
   ⟨"Kobold", "1/8", 25, "humanoid", false, true⟩,
   ⟨"Goblin", "1/4", 50, "humanoid", false, true⟩,
   ⟨"Wolf", "1/4", 50, "beast", true, false⟩,
   ⟨"Skeleton", "1/4", 50, "undead", false, false⟩,
   ⟨"Zombie", "1/4", 50, "undead", false, false⟩,
   ⟨"Orc", "1/2", 100, "humanoid", false, true⟩,
   ⟨"Warg", "1/2", 100, "beast", true, false⟩,
   ⟨"Wight", "3", 700, "undead", false, false⟩,
   ⟨"Ghoul", "1", 200, "undead", false, false⟩,
   ⟨"Hobgoblin", "1/2", 100, "humanoid", false, true⟩,
   ⟨"Bugbear", "1", 200, "humanoid", false, false⟩,
   ⟨"Ogre", "2", 450, "giant", false, false⟩,
   ⟨"Owlbear", "3", 700, "monstrosity", false, false⟩,
   ⟨"Manticore", "3", 700, "monstrosity", false, false⟩,
   ⟨"Troll", "5", 1800, "giant", false, false⟩,
   ⟨"Dire Wolf", "1", 200, "beast", true, false⟩,
   ⟨"Wyvern", "6", 2300, "dragon", true, false⟩,
   ⟨"Hill Giant", "5", 1800, "giant", false, false⟩,
   ⟨"Young Black Dragon", "7", 2900, "dragon", false, false⟩,
   ⟨"Young Green Dragon", "8", 3900, "dragon", false, false⟩,
   ⟨"Stone Giant", "7", 2900, "giant", false, false⟩,
   ⟨"Fire Giant", "9", 5000, "giant", false, false⟩,
   ⟨"Wraith", "5", 1800, "undead", false, false⟩,
   ⟨"Young Red Dragon", "10", 5900, "dragon", false, false⟩,
   ⟨"Adult Black Dragon", "14", 11500, "dragon", false, false⟩,
   ⟨"Frost Giant", "8", 3900, "giant", false, false⟩,
   ⟨"Cloud Giant", "9", 5000, "giant", false, false⟩,
   ⟨"Vampire", "13", 10000, "undead", false, false⟩,
   ⟨"Adult Red Dragon", "17", 18000, "dragon", false, false⟩,
   ⟨"Ancient Black Dragon", "21", 33000, "dragon", false, false⟩,
   ⟨"Ancient Red Dragon", "24", 62000, "dragon", false, false⟩,
   ⟨"Lich", "21", 33000, "undead", false, false⟩,
   ⟨"Tarrasque", "30", 155000, "monstrosity", false, false⟩]

/-! ## XPEncounterGenerator (xp_encounter_generator.py) -/

namespace XPEncounterGenerator

/-- Source method `_cr_to_float`: fraction or plain conversion, any raised
exception caught and turned into `0.0`. -/
def cr_to_float (cr : String) : Frac :=
  (pyParseCr cr).getD ⟨0, 1⟩

/-- One creature entry of a generated encounter: either a catalog monster
(copied verbatim) or a synthesized mounted unit dict carrying the extra
`is_mounted`, `rider` and `mount` keys. -/
structure CreatureEntry where
  name : String
  cr : String
  xp : Nat
  mtype : String
  is_mounted : Bool
  rider : Option Monster
  mount : Option Monster
deriving DecidableEq, Repr

/-- A catalog monster as an entry of the creatures list. -/
def Monster.toEntry (m : Monster) : CreatureEntry :=
  ⟨m.name, m.cr, m.xp, m.mtype, false, none, none⟩

/-- The per-bucket record of `bucket_breakdown`. -/
structure BucketInfo where
  pattern : String
  xp : Nat
  creatures : Nat
deriving DecidableEq, Repr

/-- The `bucket_breakdown` sub-dict of a split encounter. -/
structure BucketBreakdown where
  bucket1 : BucketInfo
  bucket2 : BucketInfo
deriving DecidableEq, Repr

/-- The result dict of `generate_encounter`. -/
structure Encounter where
  pattern : String
  creatures : List CreatureEntry
  total_xp : Nat
  budget : Nat
  player_level : Int
  difficulty : String
  bucket_breakdown : Option BucketBreakdown
deriving DecidableEq, Repr

/-- The explicit random draws one call of `_spend_bucket` can consume:
the `random.choice(["boss", "minions", "mounted"])` index and, on the
mounted path, the `random.randint(1, 4)` unit count. -/
structure BucketRand where
  patternChoice : Fin 3
  unitsCount : Nat
deriving DecidableEq, Repr

/-- Source `_find_best_creature`: keep the monsters whose CR is within the
tier ceiling, sort by XP descending (Python `sorted` with `reverse=True`,
stable), return the first one with XP at most `int(xp * 1.2)`, else the
last of the sorted list (the cheapest); `none` when no monster passes the
tier filter.  `int(xp * 1.2)` is modelled as `6 * xp / 5`, the exact value
of the float expression for every XP amount below 2^45 (the float factor
`1.2` carries relative error under 2^-52, far too small to move the
truncation across an integer for table-sized inputs). -/
def find_best_creature (monsters : List Monster) (xp : Nat) (level : Int) :
    Option Monster :=
  let tierMaxCr := get_tier_max_cr level
  let valid := monsters.filter (fun m => (cr_to_float m.cr).leNat tierMaxCr)
  if valid.isEmpty then none
  else
    let validSorted := pySortedDesc (fun m => m.xp) valid
    let maxXp := 6 * xp / 5
    match validSorted.find? (fun m => m.xp ≤ maxXp) with
    | some m => some m
    | none => validSorted.getLast?

/-- Source `_find_4_minions`: best fit for a quarter of the budget,
four copies (or the empty list). -/
def find_4_minions (monsters : List Monster) (total_xp : Nat) (level : Int) :
    List CreatureEntry :=
  let perCreature := total_xp / 4
  match find_best_creature monsters perCreature level with
  | none => []
  | some c => List.replicate 4 (Monster.toEntry c)

/-- The mounted-unit dict built in `_find_mounted_units`. -/
def mountedEntry (rider mount : Monster) : CreatureEntry :=
  ⟨rider.name ++ " on " ++ mount.name, rider.cr, rider.xp + mount.xp,
   rider.mtype, true, some rider, some mount⟩

/-- Source `_find_mounted_units` with the `random.randint(1, 4)` draw made
an explicit argument: per-unit budget by integer division, rider target
`int(per_unit * 0.6)` and mount target `int(per_unit * 0.4)` (modelled as
`3 * perUnit / 5` and `2 * perUnit / 5`, the exact float values for
table-sized inputs), tier-filtered rider and mount pools, closest pool
member to each target by absolute XP difference (Python `min` with an
`abs` key, first minimum wins), `unitsCount` identical pairs; empty list
when either pool is empty. -/
def find_mounted_units (monsters : List Monster) (total_xp : Nat) (level : Int)
    (unitsCount : Nat) : List CreatureEntry :=
  let perUnit := total_xp / unitsCount
  let riderXp := 3 * perUnit / 5
  let mountXp := 2 * perUnit / 5
  let tierMaxCr := get_tier_max_cr level
  let validRiders := monsters.filter
    (fun m => m.can_ride && (cr_to_float m.cr).leNat tierMaxCr)
  let validMounts := monsters.filter
    (fun m => m.can_be_mount && (cr_to_float m.cr).leNat tierMaxCr)
  match validRiders, validMounts with
  | [], _ => []
  | _, [] => []
  | r :: rs, m :: ms =>
    let rider := pyMinBy (fun x => absDiff x.xp riderXp) r rs
    let mount := pyMinBy (fun x => absDiff x.xp mountXp) m ms
    List.replicate unitsCount (mountedEntry rider mount)

/-- Source `_spend_bucket` with the `random.choice` over
`["boss", "minions", "mounted"]` made an explicit index. -/
def spend_bucket (monsters : List Monster) (xp : Nat) (level : Int)
    (rand : BucketRand) : List CreatureEntry × String :=
  match rand.patternChoice with
  | 0 =>
    match find_best_creature monsters xp level with
    | some c => ([Monster.toEntry c], "boss")
    | none => ([], "boss")
  | 1 => (find_4_minions monsters xp level, "minions")
  | 2 =>
    let mounted := find_mounted_units monsters xp level rand.unitsCount
    if mounted.isEmpty then (find_4_minions monsters xp level, "minions_fallback")
    else (mounted, "mounted")

/-- Source `_generate_split`: two buckets of `total_xp // 2` each, spent
independently, lists concatenated, `total_xp` of the result re-computed as
the sum of the XP of the listed entries. -/
def generate_split (monsters : List Monster) (total_xp : Nat) (level : Int)
    (difficulty : String) (rand1 rand2 : BucketRand) : Encounter :=
  let bucket1Xp := total_xp / 2
  let bucket2Xp := total_xp / 2
  let spent1 := spend_bucket monsters bucket1Xp level rand1
  let spent2 := spend_bucket monsters bucket2Xp level rand2
  let allCreatures := spent1.1 ++ spent2.1
  let actualXp := (allCreatures.map (fun c => c.xp)).sum
  { pattern := "split"
    creatures := allCreatures
    total_xp := actualXp
    budget := total_xp
    player_level := level
    difficulty := difficulty
    bucket_breakdown := some
      ⟨⟨spent1.2, bucket1Xp, spent1.1.length⟩,
       ⟨spent2.2, bucket2Xp, spent2.1.length⟩⟩ }

/-- Source `_generate_legendary`: single best-fit creature for the whole
budget, falling back to `_generate_split` when none exists. -/
def generate_legendary (monsters : List Monster) (xp : Nat) (level : Int)
    (difficulty : String) (rand1 rand2 : BucketRand) : Encounter :=
  match find_best_creature monsters xp level with
  | none => generate_split monsters xp level difficulty rand1 rand2
  | some creature =>
    { pattern := "legendary"
      creatures := [Monster.toEntry creature]
      total_xp := creature.xp
      budget := xp
      player_level := level
      difficulty := difficulty
      bucket_breakdown := none }

/-- Source `generate_encounter` with the `random.random() < 0.1` draw made
an explicit Boolean: budget lookup (which may raise), then the legendary
or the split path. -/
def generate_encounter (monsters : List Monster) (player_level : Int)
    (difficulty : String) (legendaryRoll : Bool) (rand1 rand2 : BucketRand) :
    Except String Encounter :=
  match get_xp_budget player_level difficulty with
  | .error e => .error e
  | .ok total_xp =>
    if legendaryRoll then
      .ok (generate_legendary monsters total_xp player_level difficulty rand1 rand2)
    else
      .ok (generate_split monsters total_xp player_level difficulty rand1 rand2)

end XPEncounterGenerator

/-! ## Encounter CR (encounter_service.py, `_calculate_encounter_cr`) -/

/-- The closed terrain enumeration of terrain_service.py. -/
inductive TerrainType where
  | plains | forest | mountain | hills | swamp | desert | urban
deriving DecidableEq, Repr

/-- Source `_calculate_encounter_cr`: base CR from distance, +1 on
mountain or swamp, clamp into the party-level band, clamp into [0, 20].
The hex distance argument is a natural number, so the Python floor
division `distance // 3` is Nat division. -/
def calculate_encounter_cr (distance : Nat) (terrain : TerrainType)
    (party_level : Int) : Int :=
  let baseCr0 : Int := (distance / 3 : Nat)
  let baseCr : Int :=
    if terrain = TerrainType.mountain ∨ terrain = TerrainType.swamp then baseCr0 + 1
    else baseCr0
  let minCr := max 0 (party_level - 2)
  let maxCr := party_level + 2
  let cr := max minCr (min baseCr maxCr)
  max 0 (min cr 20)

/-! ## Association-list lookup lemmas -/

theorem dictGet_some_mem [BEq α] [LawfulBEq α] {k : α} {v : β} :
    ∀ {l : List (α × β)}, dictGet k l = some v → (k, v) ∈ l
  | [], h => by simp [dictGet] at h
  | (k₁, v₁) :: rest, h => by
    rw [dictGet] at h
    by_cases hk : (k₁ == k) = true
    · rw [if_pos hk] at h
      have : k₁ = k := by simpa using hk
      subst this
      rw [Option.some_inj.mp h]
      exact List.mem_cons_self _ _
    · rw [if_neg hk] at h
      exact List.mem_cons_of_mem _ (dictGet_some_mem h)

theorem dictGet_eq_none_of_keys [BEq α] {k : α} :
    ∀ {l : List (α × β)}, (∀ p ∈ l, (p.1 == k) = false) → dictGet k l = none
  | [], _ => rfl
  | (k₁, v₁) :: rest, h => by
    rw [dictGet]
    rw [if_neg (by simp [h (k₁, v₁) (List.mem_cons_self _ _)])]
    exact dictGet_eq_none_of_keys (fun p hp => h p (List.mem_cons_of_mem _ hp))

theorem dictGet_budgets_isSome (level : Int) :
    (dictGet level XP_BUDGETS).isSome = true ↔ 1 ≤ level ∧ level ≤ 20 := by
  constructor
  · intro h
    by_contra hc
    have hnone : dictGet level XP_BUDGETS = none := by
      apply dictGet_eq_none_of_keys
      have hkeys : ∀ p ∈ XP_BUDGETS, 1 ≤ p.1 ∧ p.1 ≤ 20 := by decide
      intro p hp
      have hb := hkeys p hp
      have hne : p.1 ≠ level := by omega
      simpa using hne
    rw [hnone] at h
    simp at h
  · rintro ⟨h1, h2⟩
    interval_cases level <;> decide

theorem table_shape_of_keys (tbl : List (String × Nat))
    (h : tbl.map Prod.fst = ["low", "moderate", "high"]) :
    ∃ a b c : Nat, tbl = [("low", a), ("moderate", b), ("high", c)] := by
  cases tbl with
  | nil => simp at h
  | cons p1 t1 =>
    cases t1 with
    | nil => simp at h
    | cons p2 t2 =>
      cases t2 with
      | nil => simp at h
      | cons p3 t3 =>
        cases t3 with
        | cons p4 t4 => simp at h
        | nil =>
          obtain ⟨h1, h2, h3⟩ : p1.1 = "low" ∧ p2.1 = "moderate" ∧ p3.1 = "high" := by
            simpa using h
          exact ⟨p1.2, p2.2, p3.2, by rw [← h1, ← h2, ← h3]⟩

theorem dictGet_budgets_some_shape (level : Int) (tbl : List (String × Nat))
    (h : dictGet level XP_BUDGETS = some tbl) :
    ∃ a b c : Nat, tbl = [("low", a), ("moderate", b), ("high", c)] := by
  apply table_shape_of_keys
  have hk : ∀ p ∈ XP_BUDGETS, p.2.map Prod.fst = ["low", "moderate", "high"] := by
    decide
  exact hk _ (dictGet_some_mem h)

theorem dictGet3_isSome (k : String) (a b c : Nat) :
    (dictGet k [("low", a), ("moderate", b), ("high", c)]).isSome = true ↔
      k = "low" ∨ k = "moderate" ∨ k = "high" := by
  by_cases h1 : k = "low"
  · subst h1; simp [dictGet]
  · by_cases h2 : k = "moderate"
    · subst h2; simp [dictGet]
    · by_cases h3 : k = "high"
      · subst h3; simp [dictGet]
      · have e1 : ¬("low" : String) = k := fun e => h1 e.symm
        have e2 : ¬("moderate" : String) = k := fun e => h2 e.symm
        have e3 : ¬("high" : String) = k := fun e => h3 e.symm
        simp [dictGet, beq_iff_eq, e1, e2, e3, h1, h2, h3]

theorem get_xp_budget_ok_iff (level : Int) (d : String) :
    (get_xp_budget level d).isOk = true ↔
      (1 ≤ level ∧ level ≤ 20) ∧
      (pyLower d = "low" ∨ pyLower d = "moderate" ∨ pyLower d = "high") := by
  unfold get_xp_budget
  cases hd : dictGet level XP_BUDGETS with
  | none =>
    have hrange : ¬(1 ≤ level ∧ level ≤ 20) := by
      intro hc
      have := (dictGet_budgets_isSome level).mpr hc
      rw [hd] at this
      simp at this
    simp [Except.isOk, Except.toBool, hrange]
  | some tbl =>
    have hrange : 1 ≤ level ∧ level ≤ 20 := by
      have := dictGet_budgets_isSome level
      rw [hd] at this
      exact this.mp rfl
    obtain ⟨a, b, c, rfl⟩ := dictGet_budgets_some_shape level tbl hd
    cases hk : dictGet (pyLower d) [("low", a), ("moderate", b), ("high", c)] with
    | none =>
      have hnk : ¬(pyLower d = "low" ∨ pyLower d = "moderate" ∨ pyLower d = "high") := by
        intro hc
        have := (dictGet3_isSome (pyLower d) a b c).mpr hc
        rw [hk] at this
        simp at this
      simp [hk, Except.isOk, Except.toBool, hnk]
    | some v =>
      have hik : pyLower d = "low" ∨ pyLower d = "moderate" ∨ pyLower d = "high" := by
        have := dictGet3_isSome (pyLower d) a b c
        rw [hk] at this
        exact this.mp rfl
      simp [hk, Except.isOk, Except.toBool, hrange, hik]

/-! ## C8: hex distance is a metric -/

/-- C8: for all axial coordinates a, b, c, the hex distance
`(|dq| + |dq+dr| + |dr|) / 2` is symmetric, is zero exactly when the two
coordinates are equal, and satisfies the triangle inequality. -/
theorem hex_distance_metric (aq ar bq br cq cr : Int) :
    HexCoordinateSystem.get_distance aq ar bq br =
      HexCoordinateSystem.get_distance bq br aq ar ∧
    (HexCoordinateSystem.get_distance aq ar bq br = 0 ↔ aq = bq ∧ ar = br) ∧
    HexCoordinateSystem.get_distance aq ar cq cr ≤
      HexCoordinateSystem.get_distance aq ar bq br +
      HexCoordinateSystem.get_distance bq br cq cr := by
  unfold HexCoordinateSystem.get_distance
  omega

/-! ## C4: the radius scan is wrong away from the q-axis -/

/-- C4 fails on the code: at center (1, 0) with radius 1 the range scan
produces only six coordinates instead of 3 + 3 + 1 = 7, and one of them,
(0, -1), lies at hex distance 2 from the center.  The inner bounds use
`center_r - q - radius` where the correct axial scan needs
`center_r - (q - center_q) - radius`, so every center with `center_q ≠ 0`
enumerates a wrong set; the docstring promise (all hexes within the
radius) and the tests (which only exercise center (0, 0)) show the spec
formula is the intent. -/
theorem get_hexes_in_radius_wrong_off_axis :
    HexCoordinateSystem.get_hexes_in_radius 1 0 1 =
      [(0, -1), (0, 0), (0, 1), (1, -1), (1, 0), (2, -1)] ∧
    (HexCoordinateSystem.get_hexes_in_radius 1 0 1).length ≠ 3 * 1 ^ 2 + 3 * 1 + 1 ∧
    (0, -1) ∈ HexCoordinateSystem.get_hexes_in_radius 1 0 1 ∧
    HexCoordinateSystem.get_distance 1 0 0 (-1) = 2 ∧
    (HexCoordinateSystem.get_hexes_in_radius 0 0 1).length = 3 * 1 ^ 2 + 3 * 1 + 1 := by
  decide

/-! ## C5: the position seed is bounded but hash-salt dependent -/

/-- C5: the position seed always lies in [0, 2^31), and within one process
run (one fixed string hash) equal coordinates trivially give equal seeds;
but the seed is a function of the per-process salted string hash, and two
runs whose hashes differ on the formatted string "0,0" produce different
seeds for the same coordinates, refuting the claimed cross-run identity. -/
theorem position_seed_bounded_but_salt_dependent :
    (∀ (hashFn : String → Int) (q r : Int),
      0 ≤ get_position_seed hashFn q r ∧ get_position_seed hashFn q r < 2 ^ 31) ∧
    (∃ hashFn₁ hashFn₂ : String → Int,
      get_position_seed hashFn₁ 0 0 ≠ get_position_seed hashFn₂ 0 0) := by
  constructor
  · intro hashFn q r
    unfold get_position_seed
    exact ⟨Int.emod_nonneg _ (by norm_num), Int.emod_lt_of_pos _ (by norm_num)⟩
  · exact ⟨fun _ => 0, fun _ => 1, by decide⟩

/-! ## C9: encounter CR clamping -/

/-- C9 fails as literally stated: at party level 23 (the code never
validates the party level) the returned CR is 20, which is below the
claimed lower bound max(0, 23 - 2) = 21. -/
theorem encounter_cr_bounds_fail_at_level_23 :
    calculate_encounter_cr 0 TerrainType.plains 23 = 20 ∧
    ¬ max 0 ((23 : Int) - 2) ≤ calculate_encounter_cr 0 TerrainType.plains 23 := by
  decide

/-- C9 amended: for party levels between -2 and 22 — in particular for
every real party level in [1, 20] — the encounter CR equals
`distance / 3` plus 1 on mountain or swamp, clamped into the band
[max(0, level-2), level+2] and then into [0, 20], and therefore lies
within [0, 20] and within [max(0, level-2), min(level+2, 20)]. -/
theorem encounter_cr_clamped (distance : Nat) (terrain : TerrainType)
    (pl : Int) (h1 : -2 ≤ pl) (h2 : pl ≤ 22) :
    calculate_encounter_cr distance terrain pl =
      max 0 (min (max (max 0 (pl - 2))
        (min ((distance / 3 : Nat) +
          (if terrain = TerrainType.mountain ∨ terrain = TerrainType.swamp
            then 1 else 0)) (pl + 2))) 20) ∧
    0 ≤ calculate_encounter_cr distance terrain pl ∧
    calculate_encounter_cr distance terrain pl ≤ 20 ∧
    max 0 (pl - 2) ≤ calculate_encounter_cr distance terrain pl ∧
    calculate_encounter_cr distance terrain pl ≤ min (pl + 2) 20 := by
  simp only [calculate_encounter_cr]
  split <;> omega

/-- Concrete instance of `encounter_cr_clamped`: distance 7 on mountain at
party level 5 gives CR 3, inside [max(0,3), min(7,20)]. -/
theorem encounter_cr_clamped_witness :
    (-2 : Int) ≤ 5 ∧ (5 : Int) ≤ 22 ∧
    (calculate_encounter_cr 7 TerrainType.mountain 5 =
      max 0 (min (max (max 0 ((5 : Int) - 2))
        (min ((7 / 3 : Nat) +
          (if TerrainType.mountain = TerrainType.mountain ∨
              TerrainType.mountain = TerrainType.swamp then 1 else 0))
          ((5 : Int) + 2))) 20) ∧
      0 ≤ calculate_encounter_cr 7 TerrainType.mountain 5 ∧
      calculate_encounter_cr 7 TerrainType.mountain 5 ≤ 20 ∧
      max 0 ((5 : Int) - 2) ≤ calculate_encounter_cr 7 TerrainType.mountain 5 ∧
      calculate_encounter_cr 7 TerrainType.mountain 5 ≤ min ((5 : Int) + 2) 20) :=
  ⟨by decide, by decide,
    encounter_cr_clamped 7 TerrainType.mountain 5 (by decide) (by decide)⟩

/-! ## C6: CR-to-XP conversion -/

/-- C6: `cr_to_xp` reproduces every entry of the conversion table exactly
(including the three examples "1/4" → 50, "5" → 1800, "10" → 5900), never
returns a value below 10 on any string, and estimates the unknown CR "1/3"
through the sub-1 formula `int(25 + 75 * (1/3)) = 50`, a value lying
between the "1/4" entry (50) and the "1/2" entry (100) inclusive — it
coincides with the lower endpoint. -/
theorem cr_to_xp_table_exact_and_estimates :
    (∀ p ∈ CR_TO_XP, cr_to_xp p.1 = (p.2 : Int)) ∧
    cr_to_xp "1/4" = 50 ∧ cr_to_xp "5" = 1800 ∧ cr_to_xp "10" = 5900 ∧
    (∀ s : String, 10 ≤ cr_to_xp s) ∧
    cr_to_xp "1/3" = 50 ∧
    cr_to_xp "1/4" ≤ cr_to_xp "1/3" ∧ cr_to_xp "1/3" ≤ cr_to_xp "1/2" := by
  refine ⟨by decide, by decide, by decide, by decide, ?_, by decide, by decide,
    by decide⟩
  intro s
  unfold cr_to_xp
  split
  · norm_num
  · dsimp only
    split
    · rename_i v heq
      have hall : ∀ p ∈ CR_TO_XP, 10 ≤ p.2 := by decide
      have hv : 10 ≤ v := hall _ (dictGet_some_mem heq)
      exact_mod_cast hv
    · split
      · norm_num
      · exact le_max_left _ _

/-! ## C10: difficulty lookup is case-insensitive -/

/-- C10: for every level in [1, 20] and every difficulty string whose
lowercase form is one of the three recognized keys, `get_xp_budget`
succeeds and returns exactly what it returns on the lowercase form. -/
theorem get_xp_budget_case_insensitive (level : Int) (d : String)
    (h1 : 1 ≤ level) (h2 : level ≤ 20)
    (h3 : pyLower d = "low" ∨ pyLower d = "moderate" ∨ pyLower d = "high") :
    (get_xp_budget level d).isOk = true ∧
    get_xp_budget level d = get_xp_budget level (pyLower d) := by
  constructor
  · exact (get_xp_budget_ok_iff level d).mpr ⟨⟨h1, h2⟩, h3⟩
  · obtain ⟨tbl, hd⟩ := Option.isSome_iff_exists.mp
      ((dictGet_budgets_isSome level).mpr ⟨h1, h2⟩)
    obtain ⟨a, b, c, rfl⟩ := dictGet_budgets_some_shape level tbl hd
    unfold get_xp_budget
    rw [hd]
    rcases h3 with h | h | h <;> rw [h]
    · rw [show pyLower "low" = "low" from by decide]; rfl
    · rw [show pyLower "moderate" = "moderate" from by decide]; rfl
    · rw [show pyLower "high" = "high" from by decide]; rfl

/-- Concrete instance of `get_xp_budget_case_insensitive`: the difficulty
"HIGH" is accepted at level 5 and agrees with the lowercase lookup. -/
theorem get_xp_budget_case_insensitive_witness :
    (1 : Int) ≤ 5 ∧ (5 : Int) ≤ 20 ∧
    (pyLower "HIGH" = "low" ∨ pyLower "HIGH" = "moderate" ∨
      pyLower "HIGH" = "high") ∧
    ((get_xp_budget 5 "HIGH").isOk = true ∧
      get_xp_budget 5 "HIGH" = get_xp_budget 5 (pyLower "HIGH")) :=
  ⟨by decide, by decide, by decide,
    get_xp_budget_case_insensitive 5 "HIGH" (by decide) (by decide) (by decide)⟩

/-! ## C7: error behavior of the budget lookup and the generator -/

/-- C7: `get_xp_budget` fails exactly on a level outside [1, 20] or a
difficulty whose lowercase form is not one of the three recognized keys;
`generate_encounter` at level 21 with "moderate" and at level 5 with
"extreme" fails for every catalog and every random draw; and on every
valid level/difficulty pair the generator returns a result for every
catalog and every random draw — no selection failure raises. -/
theorem xp_generator_error_conditions :
    (∀ (level : Int) (d : String),
      (get_xp_budget level d).isOk = false ↔
        (level < 1 ∨ 20 < level ∨
          ¬(pyLower d = "low" ∨ pyLower d = "moderate" ∨ pyLower d = "high"))) ∧
    (∀ (monsters : List Monster) (leg : Bool)
        (r1 r2 : XPEncounterGenerator.BucketRand),
      (XPEncounterGenerator.generate_encounter monsters 21 "moderate" leg r1 r2).isOk
        = false) ∧
    (∀ (monsters : List Monster) (leg : Bool)
        (r1 r2 : XPEncounterGenerator.BucketRand),
      (XPEncounterGenerator.generate_encounter monsters 5 "extreme" leg r1 r2).isOk
        = false) ∧
    (∀ (monsters : List Monster) (level : Int) (d : String) (leg : Bool)
        (r1 r2 : XPEncounterGenerator.BucketRand),
      1 ≤ level → level ≤ 20 →
      (pyLower d = "low" ∨ pyLower d = "moderate" ∨ pyLower d = "high") →
      ∃ e, XPEncounterGenerator.generate_encounter monsters level d leg r1 r2 =
        .ok e) := by
  refine ⟨?_, ?_, ?_, ?_⟩
  · intro level d
    have h := get_xp_budget_ok_iff level d
    constructor
    · intro hf
      by_contra hc
      push_neg at hc
      have : (get_xp_budget level d).isOk = true :=
        h.mpr ⟨⟨by omega, by omega⟩, by tauto⟩
      rw [hf] at this
      cases this
    · intro hc
      cases hok : (get_xp_budget level d).isOk with
      | false => rfl
      | true =>
        obtain ⟨⟨hl1, hl2⟩, hd⟩ := h.mp hok
        rcases hc with hc | hc | hc <;> first | omega | exact absurd hd hc
  · intro monsters leg r1 r2; rfl
  · intro monsters leg r1 r2; rfl
  · intro monsters level d leg r1 r2 h1 h2 h3
    have hok := (get_xp_budget_ok_iff level d).mpr ⟨⟨h1, h2⟩, h3⟩
    cases hb : get_xp_budget level d with
    | error e => rw [hb] at hok; cases hok
    | ok v =>
      unfold XPEncounterGenerator.generate_encounter
      rw [hb]
      cases leg
      · exact ⟨_, rfl⟩
      · exact ⟨_, rfl⟩

/-- Concrete instance of `xp_generator_error_conditions`: level 5 with
difficulty "moderate" generates an encounter for the basic catalog on the
split path with two boss buckets. -/
theorem xp_generator_error_conditions_witness :
    ∃ e, XPEncounterGenerator.generate_encounter BASIC_MONSTERS 5 "moderate"
      false ⟨0, 1⟩ ⟨0, 1⟩ = .ok e :=
  xp_generator_error_conditions.2.2.2 BASIC_MONSTERS 5 "moderate" false
    ⟨0, 1⟩ ⟨0, 1⟩ (by decide) (by decide) (by decide)

/-! ## Stable-sort and first-minimum lemmas -/

theorem sortedInsertDesc_ne_nil (key : α → Nat) (x : α) (l : List α) :
    sortedInsertDesc key x l ≠ [] := by
  cases l with
  | nil => simp [sortedInsertDesc]
  | cons y ys => unfold sortedInsertDesc; split <;> simp

theorem mem_sortedInsertDesc (key : α → Nat) (x a : α) :
    ∀ (l : List α), a ∈ sortedInsertDesc key x l ↔ a = x ∨ a ∈ l
  | [] => by simp [sortedInsertDesc]
  | y :: ys => by
    unfold sortedInsertDesc
    split
    · simp [List.mem_cons]
    · simp only [List.mem_cons, mem_sortedInsertDesc key x a ys]
      tauto

theorem pairwise_sortedInsertDesc (key : α → Nat) (x : α) :
    ∀ (l : List α), l.Pairwise (fun a b => key b ≤ key a) →
      (sortedInsertDesc key x l).Pairwise (fun a b => key b ≤ key a)
  | [], _ => by simp [sortedInsertDesc]
  | y :: ys, h => by
    rw [List.pairwise_cons] at h
    obtain ⟨hy, hys⟩ := h
    unfold sortedInsertDesc
    split
    · rename_i hkey
      rw [List.pairwise_cons]
      refine ⟨?_, by rw [List.pairwise_cons]; exact ⟨hy, hys⟩⟩
      intro z hz
      rcases List.mem_cons.mp hz with rfl | hz'
      · exact hkey
      · exact le_trans (hy z hz') hkey
    · rename_i hkey
      rw [List.pairwise_cons]
      refine ⟨?_, pairwise_sortedInsertDesc key x ys hys⟩
      intro z hz
      rcases (mem_sortedInsertDesc key x z ys).mp hz with rfl | hz'
      · omega
      · exact hy z hz'

theorem mem_pySortedDesc (key : α → Nat) (a : α) :
    ∀ (l : List α), a ∈ pySortedDesc key l ↔ a ∈ l
  | [] => by simp [pySortedDesc]
  | x :: xs => by
    rw [show pySortedDesc key (x :: xs) =
      sortedInsertDesc key x (pySortedDesc key xs) from rfl]
    rw [mem_sortedInsertDesc]
    simp [mem_pySortedDesc key a xs]

theorem pairwise_pySortedDesc (key : α → Nat) :
    ∀ (l : List α), (pySortedDesc key l).Pairwise (fun a b => key b ≤ key a)
  | [] => by simp [pySortedDesc]
  | x :: xs => by
    rw [show pySortedDesc key (x :: xs) =
      sortedInsertDesc key x (pySortedDesc key xs) from rfl]
    exact pairwise_sortedInsertDesc key x _ (pairwise_pySortedDesc key xs)

theorem pySortedDesc_eq_nil_iff (key : α → Nat) (l : List α) :
    pySortedDesc key l = [] ↔ l = [] := by
  cases l with
  | nil => simp [pySortedDesc]
  | cons x xs =>
    constructor
    · intro h
      exact absurd h (sortedInsertDesc_ne_nil key x (pySortedDesc key xs))
    · intro h
      cases h

theorem find_first_in_pairwise {R : α → α → Prop} {p : α → Bool} {m : α} :
    ∀ {l : List α}, l.Pairwise R → l.find? p = some m →
      ∀ y ∈ l, p y = true → m = y ∨ R m y
  | [], _, h => by simp at h
  | x :: xs, hp, h => by
    rw [List.pairwise_cons] at hp
    by_cases hx : p x = true
    · rw [List.find?_cons_of_pos _ hx] at h
      have hxm : x = m := Option.some_inj.mp h
      subst hxm
      intro y hy hpy
      rcases List.mem_cons.mp hy with rfl | hy'
      · exact Or.inl rfl
      · exact Or.inr (hp.1 y hy')
    · rw [List.find?_cons_of_neg _ hx] at h
      intro y hy hpy
      rcases List.mem_cons.mp hy with rfl | hy'
      · exact absurd hpy hx
      · exact find_first_in_pairwise hp.2 h y hy' hpy

theorem getLast?_mem : ∀ {l : List α} {a : α}, l.getLast? = some a → a ∈ l
  | [], _, h => by simp at h
  | [x], a, h => by
    simp only [List.getLast?_singleton, Option.some_inj] at h
    simp [h]
  | x :: y :: ys, a, h => by
    rw [List.getLast?_cons_cons] at h
    exact List.mem_cons_of_mem x (getLast?_mem h)

theorem getLast_min_in_pairwise {R : α → α → Prop} {m : α} :
    ∀ {l : List α}, l.Pairwise R → l.getLast? = some m → ∀ y ∈ l, y = m ∨ R y m
  | [], _, h => by simp at h
  | [x], hp, h => by
    simp only [List.getLast?_singleton, Option.some_inj] at h
    intro y hy
    rcases List.mem_cons.mp hy with rfl | hy'
    · exact Or.inl h
    · simp at hy'
  | x :: z :: zs, hp, h => by
    rw [List.getLast?_cons_cons] at h
    rw [List.pairwise_cons] at hp
    intro y hy
    rcases List.mem_cons.mp hy with rfl | hy'
    · exact Or.inr (hp.1 m (getLast?_mem h))
    · exact getLast_min_in_pairwise hp.2 h y hy'

theorem pyMinBy_spec (f : α → Nat) :
    ∀ (xs : List α) (x : α),
      pyMinBy f x xs ∈ x :: xs ∧ ∀ y ∈ x :: xs, f (pyMinBy f x xs) ≤ f y := by
  intro xs
  induction xs with
  | nil =>
    intro x
    constructor
    · simp [pyMinBy]
    · intro y hy
      rcases List.mem_cons.mp hy with rfl | hy'
      · simp [pyMinBy]
      · simp at hy'
  | cons z zs ih =>
    intro x
    rw [show pyMinBy f x (z :: zs) =
      pyMinBy f (if f z < f x then z else x) zs from rfl]
    obtain ⟨hm, hle⟩ := ih (if f z < f x then z else x)
    constructor
    · rcases List.mem_cons.mp hm with h | h
      · rw [h]
        split <;> simp
      · exact List.mem_cons_of_mem _ (List.mem_cons_of_mem _ h)
    · intro y hy
      have hhead := hle _ (List.mem_cons_self _ _)
      rcases List.mem_cons.mp hy with rfl | hy'
      · refine le_trans hhead ?_
        split <;> omega
      · rcases List.mem_cons.mp hy' with rfl | hy''
        · refine le_trans hhead ?_
          split <;> omega
        · exact hle _ (List.mem_cons_of_mem _ hy'')

/-! ## Best-creature selection lemmas -/

theorem find_best_creature_none_iff (monsters : List Monster) (b : Nat)
    (level : Int) :
    XPEncounterGenerator.find_best_creature monsters b level = none ↔
      monsters.filter
        (fun m => (XPEncounterGenerator.cr_to_float m.cr).leNat
          (get_tier_max_cr level)) = [] := by
  unfold XPEncounterGenerator.find_best_creature
  dsimp only
  split
  · rename_i h
    rw [List.isEmpty_iff] at h
    simp [h]
  · rename_i h
    rw [List.isEmpty_iff] at h
    simp only [h, iff_false]
    split
    · simp
    · rename_i hfind
      intro hc
      rw [List.getLast?_eq_none_iff, pySortedDesc_eq_nil_iff] at hc
      exact h hc

theorem find_best_creature_some_spec (monsters : List Monster) (b : Nat)
    (level : Int) (m : Monster)
    (h : XPEncounterGenerator.find_best_creature monsters b level = some m) :
    m ∈ monsters.filter
      (fun m => (XPEncounterGenerator.cr_to_float m.cr).leNat
        (get_tier_max_cr level)) ∧
    ((m.xp ≤ 6 * b / 5 ∧
      ∀ m' ∈ monsters.filter
        (fun m => (XPEncounterGenerator.cr_to_float m.cr).leNat
          (get_tier_max_cr level)),
        m'.xp ≤ 6 * b / 5 → m'.xp ≤ m.xp) ∨
     ((∀ m' ∈ monsters.filter
        (fun m => (XPEncounterGenerator.cr_to_float m.cr).leNat
          (get_tier_max_cr level)),
        ¬ m'.xp ≤ 6 * b / 5) ∧
      ∀ m' ∈ monsters.filter
        (fun m => (XPEncounterGenerator.cr_to_float m.cr).leNat
          (get_tier_max_cr level)),
        m.xp ≤ m'.xp)) := by
  unfold XPEncounterGenerator.find_best_creature at h
  dsimp only at h
  split at h
  · cases h
  · rename_i hne
    rw [List.isEmpty_iff] at hne
    split at h
    · rename_i m' hfind
      have hmm : m' = m := Option.some_inj.mp h
      subst hmm
      have hmem : m' ∈ pySortedDesc (fun m => m.xp) (monsters.filter _) :=
        List.mem_of_find?_eq_some hfind
      have hp : (m'.xp ≤ 6 * b / 5) = true := by
        simpa using List.find?_some hfind
      refine ⟨(mem_pySortedDesc _ _ _).mp hmem, Or.inl ⟨by simpa using hp, ?_⟩⟩
      intro m₂ hm₂ hle
      have hmax := find_first_in_pairwise (pairwise_pySortedDesc
        (fun m => m.xp) _) hfind m₂ ((mem_pySortedDesc _ _ _).mpr hm₂)
        (by simpa using hle)
      rcases hmax with rfl | hmax
      · exact le_refl _
      · exact hmax
    · rename_i hfind
      have hmem : m ∈ pySortedDesc (fun m => m.xp) (monsters.filter _) :=
        getLast?_mem h
      have hnone := List.find?_eq_none.mp hfind
      refine ⟨(mem_pySortedDesc _ _ _).mp hmem, Or.inr ⟨?_, ?_⟩⟩
      · intro m₂ hm₂ hle
        exact hnone m₂ ((mem_pySortedDesc _ _ _).mpr hm₂) (by simpa using hle)
      · intro m₂ hm₂
        have hmin := getLast_min_in_pairwise (pairwise_pySortedDesc
          (fun m => m.xp) _) h m₂ ((mem_pySortedDesc _ _ _).mpr hm₂)
        rcases hmin with rfl | hmin
        · exact le_refl _
        · exact hmin

/-! ## C2: legendary selection -/

/-- C2: for every catalog, budget and level, either no catalog creature is
within the tier ceiling — and then the best-creature lookup is empty and
the legendary path falls back to the split path — or the lookup returns a
tier-eligible creature that is of maximal XP among tier-eligible creatures
with XP at most `int(1.2 * budget)` (written `6 * b / 5`, the exact value
of the float expression) when any such creature exists, and otherwise of
minimal XP among all tier-eligible creatures; the legendary encounter is
then built from exactly that creature with its XP as the achieved total. -/
theorem legendary_selects_best_or_falls_back (monsters : List Monster)
    (b : Nat) (level : Int) (d : String)
    (r1 r2 : XPEncounterGenerator.BucketRand) :
    (monsters.filter
      (fun m => (XPEncounterGenerator.cr_to_float m.cr).leNat
        (get_tier_max_cr level)) = [] ∧
     XPEncounterGenerator.find_best_creature monsters b level = none ∧
     XPEncounterGenerator.generate_legendary monsters b level d r1 r2 =
       XPEncounterGenerator.generate_split monsters b level d r1 r2) ∨
    (∃ m, XPEncounterGenerator.find_best_creature monsters b level = some m ∧
      m ∈ monsters.filter
        (fun m => (XPEncounterGenerator.cr_to_float m.cr).leNat
          (get_tier_max_cr level)) ∧
      ((m.xp ≤ 6 * b / 5 ∧
        ∀ m' ∈ monsters.filter
          (fun m => (XPEncounterGenerator.cr_to_float m.cr).leNat
            (get_tier_max_cr level)),
          m'.xp ≤ 6 * b / 5 → m'.xp ≤ m.xp) ∨
       ((∀ m' ∈ monsters.filter
          (fun m => (XPEncounterGenerator.cr_to_float m.cr).leNat
            (get_tier_max_cr level)),
          ¬ m'.xp ≤ 6 * b / 5) ∧
        ∀ m' ∈ monsters.filter
          (fun m => (XPEncounterGenerator.cr_to_float m.cr).leNat
            (get_tier_max_cr level)),
          m.xp ≤ m'.xp)) ∧
      XPEncounterGenerator.generate_legendary monsters b level d r1 r2 =
        { pattern := "legendary"
          creatures := [XPEncounterGenerator.Monster.toEntry m]
          total_xp := m.xp
          budget := b
          player_level := level
          difficulty := d
          bucket_breakdown := none }) := by
  cases hfb : XPEncounterGenerator.find_best_creature monsters b level with
  | none =>
    left
    refine ⟨(find_best_creature_none_iff monsters b level).mp hfb, rfl, ?_⟩
    unfold XPEncounterGenerator.generate_legendary
    rw [hfb]
  | some m =>
    right
    obtain ⟨hmem, hbest⟩ := find_best_creature_some_spec monsters b level m hfb
    refine ⟨m, rfl, hmem, hbest, ?_⟩
    unfold XPEncounterGenerator.generate_legendary
    rw [hfb]

/-! ## C1: split-path structure -/

/-- C1: whenever the generator produces a split-pattern encounter for a
valid level/difficulty pair with budget `b`, the two buckets are funded
with `b / 2` each (integer division, odd remainder dropped), each bucket
is spent by the bucket-spend procedure, the creature lists are
concatenated in bucket order, the reported budget is the nominal `b`, the
bucket breakdown records `b / 2` per bucket, and the reported total XP is
exactly the sum of the XP fields of the listed creature entries. -/
theorem split_encounter_structure (monsters : List Monster) (level : Int)
    (d : String) (leg : Bool) (r1 r2 : XPEncounterGenerator.BucketRand)
    (e : XPEncounterGenerator.Encounter) (b : Nat)
    (hb : get_xp_budget level d = .ok b)
    (hgen : XPEncounterGenerator.generate_encounter monsters level d leg r1 r2 =
      .ok e)
    (hsplit : e.pattern = "split") :
    e.budget = b ∧
    e.creatures = (XPEncounterGenerator.spend_bucket monsters (b / 2) level r1).1 ++
      (XPEncounterGenerator.spend_bucket monsters (b / 2) level r2).1 ∧
    e.total_xp = (e.creatures.map (fun c => c.xp)).sum ∧
    e.bucket_breakdown = some
      ⟨⟨(XPEncounterGenerator.spend_bucket monsters (b / 2) level r1).2, b / 2,
        (XPEncounterGenerator.spend_bucket monsters (b / 2) level r1).1.length⟩,
       ⟨(XPEncounterGenerator.spend_bucket monsters (b / 2) level r2).2, b / 2,
        (XPEncounterGenerator.spend_bucket monsters (b / 2) level r2).1.length⟩⟩ := by
  unfold XPEncounterGenerator.generate_encounter at hgen
  rw [hb] at hgen
  cases leg with
  | false =>
    simp at hgen
    subst hgen
    exact ⟨rfl, rfl, rfl, rfl⟩
  | true =>
    simp at hgen
    subst hgen
    unfold XPEncounterGenerator.generate_legendary at hsplit ⊢
    cases hfb : XPEncounterGenerator.find_best_creature monsters b level with
    | none => exact ⟨rfl, rfl, rfl, rfl⟩
    | some c =>
      rw [hfb] at hsplit
      simp at hsplit

/-- Concrete instance of `split_encounter_structure`: at level 1, "low"
(budget 50), with both bucket draws on the boss pattern, the split
encounter concatenates the two bucket lists and reports the literal XP
sum. -/
theorem split_encounter_structure_witness :
    get_xp_budget 1 "low" = .ok 50 ∧
    XPEncounterGenerator.generate_encounter BASIC_MONSTERS 1 "low" false
      ⟨0, 1⟩ ⟨0, 1⟩ =
      .ok (XPEncounterGenerator.generate_split BASIC_MONSTERS 50 1 "low"
        ⟨0, 1⟩ ⟨0, 1⟩) ∧
    (XPEncounterGenerator.generate_split BASIC_MONSTERS 50 1 "low"
      ⟨0, 1⟩ ⟨0, 1⟩).pattern = "split" ∧
    ((XPEncounterGenerator.generate_split BASIC_MONSTERS 50 1 "low"
        ⟨0, 1⟩ ⟨0, 1⟩).budget = 50 ∧
     (XPEncounterGenerator.generate_split BASIC_MONSTERS 50 1 "low"
        ⟨0, 1⟩ ⟨0, 1⟩).creatures =
       (XPEncounterGenerator.spend_bucket BASIC_MONSTERS (50 / 2) 1 ⟨0, 1⟩).1 ++
       (XPEncounterGenerator.spend_bucket BASIC_MONSTERS (50 / 2) 1 ⟨0, 1⟩).1 ∧
     (XPEncounterGenerator.generate_split BASIC_MONSTERS 50 1 "low"
        ⟨0, 1⟩ ⟨0, 1⟩).total_xp =
       ((XPEncounterGenerator.generate_split BASIC_MONSTERS 50 1 "low"
          ⟨0, 1⟩ ⟨0, 1⟩).creatures.map (fun c => c.xp)).sum ∧
     (XPEncounterGenerator.generate_split BASIC_MONSTERS 50 1 "low"
        ⟨0, 1⟩ ⟨0, 1⟩).bucket_breakdown = some
       ⟨⟨(XPEncounterGenerator.spend_bucket BASIC_MONSTERS (50 / 2) 1 ⟨0, 1⟩).2,
          50 / 2,
          (XPEncounterGenerator.spend_bucket BASIC_MONSTERS (50 / 2) 1 ⟨0, 1⟩).1.length⟩,
        ⟨(XPEncounterGenerator.spend_bucket BASIC_MONSTERS (50 / 2) 1 ⟨0, 1⟩).2,
          50 / 2,
          (XPEncounterGenerator.spend_bucket BASIC_MONSTERS (50 / 2) 1 ⟨0, 1⟩).1.length⟩⟩) :=
  ⟨by rfl, by rfl, by rfl,
    split_encounter_structure BASIC_MONSTERS 1 "low" false ⟨0, 1⟩ ⟨0, 1⟩
      (XPEncounterGenerator.generate_split BASIC_MONSTERS 50 1 "low" ⟨0, 1⟩ ⟨0, 1⟩)
      50 (by rfl) (by rfl) (by rfl)⟩

/-! ## C3: mounted-unit selection -/

/-- C3: on the mounted bucket pattern with a unit count drawn from 1-4,
either no tier-eligible rider or no tier-eligible mount exists — then the
mounted lookup is empty and the bucket falls back to the minions procedure
under the distinct tag "minions_fallback" — or the bucket consists of
identical rider+mount pairs where the rider is a tier-eligible `can_ride`
creature whose XP is closest by absolute difference to the rider target
`int(0.6 * per_unit)` (written `3 * perUnit / 5`, the exact float value)
and the mount is a tier-eligible `can_be_mount` creature closest to the
mount target `int(0.4 * per_unit)` (written `2 * perUnit / 5`), with no
budget ceiling applied; every produced unit carries XP exactly
`rider.xp + mount.xp` and the CR of the rider, and the bucket reports the
tag "mounted". -/
theorem mounted_units_selection (monsters : List Monster) (xp : Nat)
    (level : Int) (rand : XPEncounterGenerator.BucketRand)
    (hpat : rand.patternChoice = 2)
    (h1 : 1 ≤ rand.unitsCount) (h4 : rand.unitsCount ≤ 4) :
    ((monsters.filter (fun m => m.can_ride &&
        (XPEncounterGenerator.cr_to_float m.cr).leNat (get_tier_max_cr level)) = [] ∨
      monsters.filter (fun m => m.can_be_mount &&
        (XPEncounterGenerator.cr_to_float m.cr).leNat (get_tier_max_cr level)) = []) ∧
     XPEncounterGenerator.find_mounted_units monsters xp level rand.unitsCount = [] ∧
     XPEncounterGenerator.spend_bucket monsters xp level rand =
       (XPEncounterGenerator.find_4_minions monsters xp level, "minions_fallback")) ∨
    (∃ rider mount,
      rider ∈ monsters.filter (fun m => m.can_ride &&
        (XPEncounterGenerator.cr_to_float m.cr).leNat (get_tier_max_cr level)) ∧
      mount ∈ monsters.filter (fun m => m.can_be_mount &&
        (XPEncounterGenerator.cr_to_float m.cr).leNat (get_tier_max_cr level)) ∧
      (∀ r' ∈ monsters.filter (fun m => m.can_ride &&
          (XPEncounterGenerator.cr_to_float m.cr).leNat (get_tier_max_cr level)),
        absDiff rider.xp (3 * (xp / rand.unitsCount) / 5) ≤
          absDiff r'.xp (3 * (xp / rand.unitsCount) / 5)) ∧
      (∀ m' ∈ monsters.filter (fun m => m.can_be_mount &&
          (XPEncounterGenerator.cr_to_float m.cr).leNat (get_tier_max_cr level)),
        absDiff mount.xp (2 * (xp / rand.unitsCount) / 5) ≤
          absDiff m'.xp (2 * (xp / rand.unitsCount) / 5)) ∧
      XPEncounterGenerator.find_mounted_units monsters xp level rand.unitsCount =
        List.replicate rand.unitsCount
          (XPEncounterGenerator.mountedEntry rider mount) ∧
      (∀ e ∈ XPEncounterGenerator.find_mounted_units monsters xp level
          rand.unitsCount,
        e.xp = rider.xp + mount.xp ∧ e.cr = rider.cr) ∧
      XPEncounterGenerator.spend_bucket monsters xp level rand =
        (XPEncounterGenerator.find_mounted_units monsters xp level rand.unitsCount,
          "mounted")) := by
  obtain ⟨pc, u⟩ := rand
  dsimp only at hpat h1 h4 ⊢
  subst hpat
  obtain ⟨n, rfl⟩ : ∃ n, u = n + 1 := ⟨u - 1, by omega⟩
  cases hR : monsters.filter (fun m => m.can_ride &&
      (XPEncounterGenerator.cr_to_float m.cr).leNat (get_tier_max_cr level)) with
  | nil =>
    have hfmu : XPEncounterGenerator.find_mounted_units monsters xp level (n + 1)
        = [] := by
      unfold XPEncounterGenerator.find_mounted_units
      dsimp only
      rw [hR]
      cases monsters.filter (fun m => m.can_be_mount &&
        (XPEncounterGenerator.cr_to_float m.cr).leNat (get_tier_max_cr level)) <;> rfl
    have hsb : XPEncounterGenerator.spend_bucket monsters xp level ⟨2, n + 1⟩ =
        (XPEncounterGenerator.find_4_minions monsters xp level,
          "minions_fallback") := by
      unfold XPEncounterGenerator.spend_bucket
      dsimp only
      rw [hfmu]
      rfl
    exact Or.inl ⟨Or.inl rfl, hfmu, hsb⟩
  | cons r rs =>
    cases hM : monsters.filter (fun m => m.can_be_mount &&
        (XPEncounterGenerator.cr_to_float m.cr).leNat (get_tier_max_cr level)) with
    | nil =>
      have hfmu : XPEncounterGenerator.find_mounted_units monsters xp level (n + 1)
          = [] := by
        unfold XPEncounterGenerator.find_mounted_units
        dsimp only
        rw [hR, hM]
      have hsb : XPEncounterGenerator.spend_bucket monsters xp level ⟨2, n + 1⟩ =
          (XPEncounterGenerator.find_4_minions monsters xp level,
            "minions_fallback") := by
        unfold XPEncounterGenerator.spend_bucket
        dsimp only
        rw [hfmu]
        rfl
      exact Or.inl ⟨Or.inr rfl, hfmu, hsb⟩
    | cons m ms =>
      have hfmu : XPEncounterGenerator.find_mounted_units monsters xp level (n + 1)
          = List.replicate (n + 1) (XPEncounterGenerator.mountedEntry
            (pyMinBy (fun x => absDiff x.xp (3 * (xp / (n + 1)) / 5)) r rs)
            (pyMinBy (fun x => absDiff x.xp (2 * (xp / (n + 1)) / 5)) m ms)) := by
        unfold XPEncounterGenerator.find_mounted_units
        dsimp only
        rw [hR, hM]
      obtain ⟨hrmem, hrle⟩ :=
        pyMinBy_spec (fun x => absDiff x.xp (3 * (xp / (n + 1)) / 5)) rs r
      obtain ⟨hmmem, hmle⟩ :=
        pyMinBy_spec (fun x => absDiff x.xp (2 * (xp / (n + 1)) / 5)) ms m
      refine Or.inr ⟨pyMinBy (fun x => absDiff x.xp (3 * (xp / (n + 1)) / 5)) r rs,
        pyMinBy (fun x => absDiff x.xp (2 * (xp / (n + 1)) / 5)) m ms,
        ?_, ?_, ?_, ?_, hfmu, ?_, ?_⟩
      · exact hrmem
      · exact hmmem
      · intro r' hr'
        exact hrle r' hr'
      · intro m' hm'
        exact hmle m' hm'
      · intro e he
        rw [hfmu] at he
        have := List.eq_of_mem_replicate he
        subst this
        exact ⟨rfl, rfl⟩
      · unfold XPEncounterGenerator.spend_bucket
        dsimp only
        rw [hfmu]
        rfl

/-- Concrete instance of `mounted_units_selection`: a 500 XP bucket at
level 5 with two mounted units (rider target 150, mount target 100). -/
theorem mounted_units_selection_witness :
    ((BASIC_MONSTERS.filter (fun m => m.can_ride &&
        (XPEncounterGenerator.cr_to_float m.cr).leNat (get_tier_max_cr 5)) = [] ∨
      BASIC_MONSTERS.filter (fun m => m.can_be_mount &&
        (XPEncounterGenerator.cr_to_float m.cr).leNat (get_tier_max_cr 5)) = []) ∧
     XPEncounterGenerator.find_mounted_units BASIC_MONSTERS 500 5 2 = [] ∧
     XPEncounterGenerator.spend_bucket BASIC_MONSTERS 500 5 ⟨2, 2⟩ =
       (XPEncounterGenerator.find_4_minions BASIC_MONSTERS 500 5,
         "minions_fallback")) ∨
    (∃ rider mount,
      rider ∈ BASIC_MONSTERS.filter (fun m => m.can_ride &&
        (XPEncounterGenerator.cr_to_float m.cr).leNat (get_tier_max_cr 5)) ∧
      mount ∈ BASIC_MONSTERS.filter (fun m => m.can_be_mount &&
        (XPEncounterGenerator.cr_to_float m.cr).leNat (get_tier_max_cr 5)) ∧
      (∀ r' ∈ BASIC_MONSTERS.filter (fun m => m.can_ride &&
          (XPEncounterGenerator.cr_to_float m.cr).leNat (get_tier_max_cr 5)),
        absDiff rider.xp 150 ≤ absDiff r'.xp 150) ∧
      (∀ m' ∈ BASIC_MONSTERS.filter (fun m => m.can_be_mount &&
          (XPEncounterGenerator.cr_to_float m.cr).leNat (get_tier_max_cr 5)),
        absDiff mount.xp 100 ≤ absDiff m'.xp 100) ∧
      XPEncounterGenerator.find_mounted_units BASIC_MONSTERS 500 5 2 =
        List.replicate 2 (XPEncounterGenerator.mountedEntry rider mount) ∧
      (∀ e ∈ XPEncounterGenerator.find_mounted_units BASIC_MONSTERS 500 5 2,
        e.xp = rider.xp + mount.xp ∧ e.cr = rider.cr) ∧
      XPEncounterGenerator.spend_bucket BASIC_MONSTERS 500 5 ⟨2, 2⟩ =
        (XPEncounterGenerator.find_mounted_units BASIC_MONSTERS 500 5 2,
          "mounted")) :=
  mounted_units_selection BASIC_MONSTERS 500 5 ⟨2, 2⟩ rfl (by decide) (by decide)

/-- Concrete instance of `cr_to_xp_table_exact_and_estimates` at the table
entry ("5", 1800) and the lower bound at the non-table string "1/3". -/
theorem cr_to_xp_table_witness :
    ("5", (1800 : Nat)) ∈ CR_TO_XP ∧ cr_to_xp "5" = 1800 ∧ 10 ≤ cr_to_xp "1/3" :=
  ⟨by decide,
    cr_to_xp_table_exact_and_estimates.1 ("5", 1800) (by decide),
    cr_to_xp_table_exact_and_estimates.2.2.2.2.1 "1/3"⟩

/-- Concrete instance of `legendary_selects_best_or_falls_back`: the basic
catalog at budget 1800, level 5. -/
theorem legendary_selects_best_witness :
    (BASIC_MONSTERS.filter
      (fun m => (XPEncounterGenerator.cr_to_float m.cr).leNat
        (get_tier_max_cr 5)) = [] ∧
     XPEncounterGenerator.find_best_creature BASIC_MONSTERS 1800 5 = none ∧
     XPEncounterGenerator.generate_legendary BASIC_MONSTERS 1800 5 "moderate"
       ⟨0, 1⟩ ⟨0, 1⟩ =
       XPEncounterGenerator.generate_split BASIC_MONSTERS 1800 5 "moderate"
         ⟨0, 1⟩ ⟨0, 1⟩) ∨
    (∃ m, XPEncounterGenerator.find_best_creature BASIC_MONSTERS 1800 5 = some m ∧
      m ∈ BASIC_MONSTERS.filter
        (fun m => (XPEncounterGenerator.cr_to_float m.cr).leNat
          (get_tier_max_cr 5)) ∧
      ((m.xp ≤ 6 * 1800 / 5 ∧
        ∀ m' ∈ BASIC_MONSTERS.filter
          (fun m => (XPEncounterGenerator.cr_to_float m.cr).leNat
            (get_tier_max_cr 5)),
          m'.xp ≤ 6 * 1800 / 5 → m'.xp ≤ m.xp) ∨
       ((∀ m' ∈ BASIC_MONSTERS.filter
          (fun m => (XPEncounterGenerator.cr_to_float m.cr).leNat
            (get_tier_max_cr 5)),
          ¬ m'.xp ≤ 6 * 1800 / 5) ∧
        ∀ m' ∈ BASIC_MONSTERS.filter
          (fun m => (XPEncounterGenerator.cr_to_float m.cr).leNat
            (get_tier_max_cr 5)),
          m.xp ≤ m'.xp)) ∧
      XPEncounterGenerator.generate_legendary BASIC_MONSTERS 1800 5 "moderate"
        ⟨0, 1⟩ ⟨0, 1⟩ =
        { pattern := "legendary"
          creatures := [XPEncounterGenerator.Monster.toEntry m]
          total_xp := m.xp
          budget := 1800
          player_level := 5
          difficulty := "moderate"
          bucket_breakdown := none }) :=
  legendary_selects_best_or_falls_back BASIC_MONSTERS 1800 5 "moderate" ⟨0, 1⟩ ⟨0, 1⟩
